import Mathlib

/-
Verification of the stock ingestion / consolidation / staleness-gated-serving
core of the repository. The Python sources are shallowly embedded:

  * simple_stock_api.py   : fetch_stock_data, get_cached_or_fresh_data,
                            get_stock, get_performance_summary, refresh_data
  * stock_api_pipeline.py : StockDataSource.run (the per-record dict update
                            that maintains the latest-state snapshot) and the
                            change-percent computation of _get_stock_data
  * pathway_pipeline.py   : StockDataSource._get_stock_prices and the
                            polling loop of StockDataSource.run

Python floats are embedded as rationals; Python dicts keyed by ticker are
embedded as association lists with a key-replacing insert matching dict
assignment. The ai_analysis field attached by simple_stock_api.py is an
external collaborator (out of scope per the specification) and is omitted
from the embedded records.
-/

namespace StockCore

/-- Python `round(x, 2)` modelled over the rationals: round to the nearest
multiple of 1/100 (the tie-breaking direction of Python float rounding is
immaterial to every property proved here). -/
def round2 (x : ℚ) : ℚ := (round (x * 100) : ℤ) / 100

/-- Python `str.upper()` as used by `get_stock` (`ticker = ticker.upper()`),
written over the character list of the string. -/
def pyUpper (s : String) : String := String.mk (s.data.map Char.toUpper)

/-- The change-percent computation of simple_stock_api.fetch_stock_data
(lines 82-84) and, identically, stock_api_pipeline.StockDataSource.
_get_stock_data (lines 90-92):

    change_percent = 0.0
    if previous_close > 0:
        change_percent = ((current_price - previous_close) / previous_close) * 100
-/
def changePercentGuarded (current_price previous_close : ℚ) : ℚ :=
  if 0 < previous_close then (current_price - previous_close) / previous_close * 100 else 0

/-- The change-percent computation of pathway_pipeline.StockDataSource.
_get_stock_prices (line 199), whose guard is Python truthiness of the
divisor:

    change_percent = ((current_price - prev_close) / prev_close * 100) if prev_close else 0
-/
def changePercentTruthy (current_price prev_close : ℚ) : ℚ :=
  if prev_close ≠ 0 then (current_price - prev_close) / prev_close * 100 else 0

/-- The fields of the yfinance `info` dict read by
simple_stock_api.fetch_stock_data; a missing key is `none` and the
corresponding `info.get(key, default)` default is applied at use sites. -/
structure StockInfo where
  currentPrice : Option ℚ
  previousClose : Option ℚ
  longName : Option String
  volume : Option Int
  marketCap : Option Int
  trailingPE : Option ℚ
  fiftyTwoWeekHigh : Option ℚ
  fiftyTwoWeekLow : Option ℚ
  sector : Option String
  industry : Option String
deriving DecidableEq

/-- The `stock_data` dict built by simple_stock_api.fetch_stock_data
(lines 86-100). The ai_analysis field is omitted: it is produced by the
out-of-scope AI collaborator. -/
structure StockRecord where
  ticker : String
  company_name : String
  price : ℚ
  previous_close : ℚ
  change_percent : ℚ
  volume : Int
  market_cap : Option Int
  pe_ratio : Option ℚ
  fifty_two_week_high : Option ℚ
  fifty_two_week_low : Option ℚ
  sector : Option String
  industry : Option String
  timestamp : String
deriving DecidableEq

/-- Outcome of the `yf.Ticker(ticker); info = stock.info` block for one
ticker inside fetch_stock_data: either the info dict, or the exception
caught by the per-ticker `except` clause. -/
inductive FetchResult where
  | ok (info : StockInfo)
  | failure (msg : String)
deriving DecidableEq

/-- The in-memory cache `stock_cache : Dict[str, Dict]`, embedded as an
association list with unique keys. -/
abbrev Snapshot := List (String × StockRecord)

/-- Python dict assignment `d[k] = v`: replace the value if the key is
present, append the key otherwise (association lists built only with
`dictInsert` have unique keys, so replacing the first occurrence is
faithful). -/
def dictInsert {α : Type} : List (String × α) → String → α → List (String × α)
  | [], k, v => [(k, v)]
  | (k', v') :: rest, k, v =>
    if k' = k then (k, v) :: rest else (k', v') :: dictInsert rest k v

/-- The body of the `try` block of simple_stock_api.fetch_stock_data
(lines 77-100): build one `stock_data` dict from the info dict, stamped
with `datetime.now().isoformat()` (the `now` argument). -/
def buildStockData (ticker : String) (info : StockInfo) (now : String) : StockRecord :=
  let current_price := info.currentPrice.getD 0
  let previous_close := info.previousClose.getD 0
  { ticker := ticker
    company_name := info.longName.getD ticker
    price := current_price
    previous_close := previous_close
    change_percent := round2 (changePercentGuarded current_price previous_close)
    volume := info.volume.getD 0
    market_cap := info.marketCap
    pe_ratio := info.trailingPE
    fifty_two_week_high := info.fiftyTwoWeekHigh
    fifty_two_week_low := info.fiftyTwoWeekLow
    sector := info.sector
    industry := info.industry
    timestamp := now }

/-- The `for ticker in tickers` loop of fetch_stock_data (lines 72-115)
with accumulator `fresh_data`: a successful fetch stores its record under
the ticker, a failed fetch hits the `except ... continue` clause and
contributes nothing. -/
def fetchFold (fresh_data : Snapshot) : List (String × FetchResult) → String → Snapshot
  | [], _ => fresh_data
  | (ticker, FetchResult.ok info) :: rest, now =>
    fetchFold (dictInsert fresh_data ticker (buildStockData ticker info now)) rest now
  | (_, FetchResult.failure _) :: rest, now => fetchFold fresh_data rest now

/-- simple_stock_api.fetch_stock_data (lines 65-119), embedded as a function
of the per-ticker fetch outcomes and the current clock reading. It starts
from `fresh_data = {}` and never reads the previous `stock_cache`; its
result wholesale replaces `stock_cache` (line 117). -/
def fetch_stock_data (outcomes : List (String × FetchResult)) (now : String) : Snapshot :=
  fetchFold [] outcomes now

/-- Python `timedelta.seconds` of a nonnegative elapsed duration given in
microseconds: the timedelta normalizes into days, seconds and microseconds,
so the seconds attribute is `(elapsed_us / 1000000) % 86400`. -/
def timedeltaSeconds (elapsed_us : Nat) : Nat := elapsed_us / 1000000 % 86400

/-- The refresh decision of simple_stock_api.get_cached_or_fresh_data
(lines 126-128):

    if (not stock_cache or
        not last_update or
        (datetime.now() - last_update).seconds > 60):
        return fetch_stock_data()
    return stock_cache
-/
def needsRefresh (cacheEmpty : Bool) (lastUpdateNone : Bool) (elapsed_us : Nat) : Bool :=
  cacheEmpty || lastUpdateNone || decide (60 < timedeltaSeconds elapsed_us)

/-- FastAPI HTTPException as raised by the query endpoints. -/
structure HTTPErrorModel where
  status_code : Nat
  detail : String
deriving DecidableEq

/-- simple_stock_api.get_stock (lines 153-162) over the snapshot returned
by get_cached_or_fresh_data: uppercase the ticker, 404 if absent, else the
stored record. -/
def get_stock (data : Snapshot) (ticker : String) : Except HTTPErrorModel StockRecord :=
  let t := pyUpper ticker
  match List.lookup t data with
  | none => Except.error { status_code := 404, detail := "Stock " ++ t ++ " not found" }
  | some v => Except.ok v

/-- One row emitted by stock_api_pipeline.StockDataSource.run (lines 56-66):
the dict built by _get_stock_data with the added `timestamp` and the
`int(time.time())` component of `stock_id` (the sequence number of the
specification). In that file every `info.get` call supplies a concrete
default, so no field is optional. -/
structure PipelineRecord where
  ticker : String
  seq : Nat
  company_name : String
  price : ℚ
  previous_close : ℚ
  change_percent : ℚ
  volume : Int
  market_cap : Int
  pe_ratio : ℚ
  fifty_two_week_high : ℚ
  fifty_two_week_low : ℚ
  sector : String
  industry : String
  timestamp : String
deriving DecidableEq

/-- The latest-state reduction of stock_api_pipeline.py: the run loop
executes `latest_stock_data[data['ticker']] = data` for each emitted record
in append order (line 64), an unconditional per-key overwrite.
`pw.reducers.latest` in create_stock_pipeline (lines 149-160) keeps, per
ticker, the fields of the most recently processed record, which is the
same last-write-wins semantics over the append order. -/
def reduceLog (latest_stock_data : List (String × PipelineRecord)) :
    List PipelineRecord → List (String × PipelineRecord)
  | [] => latest_stock_data
  | r :: rest => reduceLog (dictInsert latest_stock_data r.ticker r) rest

/-- The fields of the yfinance `info` dict read by
pathway_pipeline.StockDataSource._get_stock_prices. -/
structure PWInfo where
  regularMarketPrice : Option ℚ
  previousClose : Option ℚ
  regularMarketVolume : Option Int
  marketCap : Option Int
  trailingPE : Option ℚ
  shortName : Option String
deriving DecidableEq

/-- One element of the list returned by
pathway_pipeline.StockDataSource._get_stock_prices; rows appended by the
`except` branch additionally carry the error message. -/
structure PWRecord where
  ticker : String
  price : ℚ
  previous_close : ℚ
  change_percent : ℚ
  volume : Int
  market_cap : Int
  pe_ratio : ℚ
  company_name : String
  error : Option String
deriving DecidableEq

/-- The `try` branch of _get_stock_prices (lines 192-210): note the
previous-close default is the current price and the truthiness guard on the
division. -/
def buildPWOk (ticker : String) (info : PWInfo) : PWRecord :=
  let current_price := info.regularMarketPrice.getD 0
  let prev_close := info.previousClose.getD current_price
  { ticker := ticker
    price := current_price
    previous_close := prev_close
    change_percent := round2 (changePercentTruthy current_price prev_close)
    volume := info.regularMarketVolume.getD 0
    market_cap := info.marketCap.getD 0
    pe_ratio := info.trailingPE.getD 0
    company_name := info.shortName.getD ticker
    error := none }

/-- The `except` branch of _get_stock_prices (lines 212-224): a zero-valued
quote row for the failed ticker, tagged with the stringified exception. -/
def fabricatedFailureRecord (ticker : String) (e : String) : PWRecord :=
  { ticker := ticker
    price := 0
    previous_close := 0
    change_percent := 0
    volume := 0
    market_cap := 0
    pe_ratio := 0
    company_name := ticker
    error := some e }

/-- pathway_pipeline.StockDataSource._get_stock_prices (lines 186-226): the
`for ticker in self.tickers` loop appends one row per ticker — a data row
on success, a fabricated zero-valued row on failure. -/
def get_stock_prices : List (String × Except String PWInfo) → List PWRecord
  | [] => []
  | (ticker, Except.ok info) :: rest => buildPWOk ticker info :: get_stock_prices rest
  | (ticker, Except.error e) :: rest => fabricatedFailureRecord ticker e :: get_stock_prices rest

/-- The value returned by simple_stock_api.get_performance_summary
(lines 164-196); the last_updated field is the cache timestamp and is not
part of the fold. -/
structure PerformanceSummary where
  total_stocks : Nat
  gainers : Nat
  losers : Nat
  flat : Nat
  avg_change_percent : ℚ
  top_gainer : Option String
  top_loser : Option String
deriving DecidableEq

/-- simple_stock_api.get_performance_summary (lines 164-196) as a pure
function of the snapshot: counts of positive and negative movers, flat as
the remainder, the rounded mean change, and the extremes of the stable
descending sort used for top gainer and loser. -/
def get_performance_summary (data : Snapshot) : PerformanceSummary :=
  let stocks := data.map Prod.snd
  let total_stocks := stocks.length
  let gainers := (stocks.filter (fun s => decide (0 < s.change_percent))).length
  let losers := (stocks.filter (fun s => decide (s.change_percent < 0))).length
  let flat := total_stocks - gainers - losers
  let changes := stocks.map (fun s => s.change_percent)
  let avg_change := if changes.length ≠ 0 then changes.sum / (changes.length : ℚ) else 0
  let sorted_stocks := stocks.mergeSort (fun a b => decide (b.change_percent ≤ a.change_percent))
  { total_stocks := total_stocks
    gainers := gainers
    losers := losers
    flat := flat
    avg_change_percent := round2 avg_change
    top_gainer := sorted_stocks.head?.map (fun s => s.ticker)
    top_loser := sorted_stocks.getLast?.map (fun s => s.ticker) }

/-- Observable outcome of one iteration of a polling loop: the records
forwarded, the error message logged (if any), the sleep executed at the end
of the iteration, and whether control returns to the top of the loop. -/
structure TickResult (α : Type) where
  emitted : List α
  errorLogged : Option String
  sleepSeconds : Nat
  continues : Bool
deriving DecidableEq

/-- One iteration of stock_api_pipeline.StockDataSource.run (lines 50-73):
the `while True` body fetches, emits every record and sleeps the refresh
interval; any exception is caught, logged and followed by the same sleep.
Both branches fall through to the next iteration — the loop has no break,
return or re-raise, so it stops only when the process is cancelled from
outside (KeyboardInterrupt is not an Exception and is not caught). -/
def pollTickStockApi (refresh_interval : Nat)
    (fetched : Except String (List PipelineRecord)) : TickResult PipelineRecord :=
  match fetched with
  | Except.ok records =>
    { emitted := records
      errorLogged := none
      sleepSeconds := refresh_interval
      continues := true }
  | Except.error e =>
    { emitted := []
      errorLogged := some ("Error in stock data source: " ++ e)
      sleepSeconds := refresh_interval
      continues := true }

/-- One iteration of pathway_pipeline.StockDataSource.run (lines 167-184):
identical to the stock_api_pipeline loop except that the failure branch
sleeps the fixed 30-second backoff. -/
def pollTickPathway (refresh_interval : Nat)
    (fetched : Except String (List PWRecord)) : TickResult PWRecord :=
  match fetched with
  | Except.ok records =>
    { emitted := records
      errorLogged := none
      sleepSeconds := refresh_interval
      continues := true }
  | Except.error e =>
    { emitted := []
      errorLogged := some ("Stock data error: " ++ e)
      sleepSeconds := 30
      continues := true }

/-- The stock_api_pipeline polling loop run against a finite prefix of tick
outcomes: every tick is processed in order, none aborts the loop. -/
def pollLoopStockApi (refresh_interval : Nat)
    (fetches : List (Except String (List PipelineRecord))) : List (TickResult PipelineRecord) :=
  fetches.map (pollTickStockApi refresh_interval)

/-! ### Helper lemmas -/

theorem lookup_cons' {α : Type} (a : String) (b : α) (es : List (String × α)) (k : String) :
    List.lookup k ((a, b) :: es) = if k = a then some b else List.lookup k es := by
  by_cases h : k = a
  · subst h
    simp [List.lookup]
  · have hb : (k == a) = false := beq_eq_false_iff_ne.mpr h
    simp [List.lookup, hb, h]

theorem lookup_dictInsert {α : Type} (d : List (String × α)) (k : String) (v : α) (k' : String) :
    List.lookup k' (dictInsert d k v) = if k' = k then some v else List.lookup k' d := by
  induction d with
  | nil =>
    show List.lookup k' [(k, v)] = _
    rw [lookup_cons']
  | cons p rest ih =>
    obtain ⟨a, b⟩ := p
    by_cases hak : a = k
    · subst hak
      show List.lookup k' (if a = a then (a, v) :: rest else _) = _
      rw [if_pos rfl, lookup_cons', lookup_cons']
      by_cases h : k' = a <;> simp [h]
    · show List.lookup k' (if a = k then _ else (a, b) :: dictInsert rest k v) = _
      rw [if_neg hak, lookup_cons', ih, lookup_cons']
      by_cases h : k' = a
      · subst h
        simp [hak]
      · simp [h]

theorem find?_singleton' {α : Type} (p : α → Bool) (a : α) :
    [a].find? p = if p a then some a else none := by
  cases hp : p a <;> simp [List.find?, hp]

theorem lookup_reduceLog (l : List PipelineRecord) :
    ∀ (snap : List (String × PipelineRecord)) (k : String),
    List.lookup k (reduceLog snap l) =
      (l.reverse.find? (fun r => r.ticker == k)).or (List.lookup k snap) := by
  induction l with
  | nil =>
    intro snap k
    simp [reduceLog]
  | cons r rest ih =>
    intro snap k
    show List.lookup k (reduceLog (dictInsert snap r.ticker r) rest) = _
    rw [ih, lookup_dictInsert, List.reverse_cons, List.find?_append, Option.or_assoc]
    congr 1
    rw [find?_singleton']
    by_cases h : r.ticker = k
    · rw [if_pos h.symm, if_pos (by simpa using h)]
      rfl
    · rw [if_neg (fun he => h he.symm), if_neg (by simpa using h), Option.none_or]

theorem fetchFold_lookup_stable (outcomes : List (String × FetchResult)) :
    ∀ (init : Snapshot) (now k : String),
    List.lookup k init ≠ none → List.lookup k (fetchFold init outcomes now) ≠ none := by
  induction outcomes with
  | nil =>
    intro init now k h
    exact h
  | cons p rest ih =>
    obtain ⟨t, res⟩ := p
    cases res with
    | ok info =>
      intro init now k h
      show List.lookup k (fetchFold (dictInsert init t (buildStockData t info now)) rest now) ≠ none
      apply ih
      rw [lookup_dictInsert]
      by_cases hk : k = t
      · simp [hk]
      · simpa [hk] using h
    | failure msg =>
      intro init now k h
      exact ih init now k h

theorem fetchFold_lookup_of_ok (outcomes : List (String × FetchResult)) :
    ∀ (init : Snapshot) (now k : String) (info : StockInfo),
    (k, FetchResult.ok info) ∈ outcomes →
    List.lookup k (fetchFold init outcomes now) ≠ none := by
  induction outcomes with
  | nil =>
    intro _ _ _ _ h
    cases h
  | cons p rest ih =>
    intro init now k info hmem
    obtain ⟨t, res⟩ := p
    rcases List.mem_cons.mp hmem with heq | hrest
    · cases heq
      show List.lookup k (fetchFold (dictInsert init k (buildStockData k info now)) rest now) ≠ none
      apply fetchFold_lookup_stable
      rw [lookup_dictInsert, if_pos rfl]
      simp
    · cases res with
      | ok i2 =>
        exact ih _ now k info hrest
      | failure m =>
        exact ih init now k info hrest

theorem fetchFold_lookup_none (outcomes : List (String × FetchResult)) :
    ∀ (init : Snapshot) (now k : String),
    (∀ info : StockInfo, (k, FetchResult.ok info) ∉ outcomes) →
    List.lookup k init = none →
    List.lookup k (fetchFold init outcomes now) = none := by
  induction outcomes with
  | nil =>
    intro init now k _ h
    exact h
  | cons p rest ih =>
    intro init now k hno h
    obtain ⟨t, res⟩ := p
    cases res with
    | ok info =>
      have htk : t ≠ k := by
        intro he
        subst he
        exact hno info (List.mem_cons_self _ _)
      show List.lookup k (fetchFold (dictInsert init t (buildStockData t info now)) rest now) = none
      apply ih
      · intro info2 hm
        exact hno info2 (List.mem_cons_of_mem _ hm)
      · rw [lookup_dictInsert, if_neg (fun hk => htk hk.symm)]
        exact h
    | failure m =>
      apply ih _ now k _ h
      intro info2 hm
      exact hno info2 (List.mem_cons_of_mem _ hm)

/-- Erase the clock stamp of a record: used to state which part of a
published snapshot depends on the refresh time. -/
def stripRecord (r : StockRecord) : StockRecord := { r with timestamp := "" }

/-- Erase the clock stamp of one cache entry. -/
def stripEntry (p : String × StockRecord) : String × StockRecord := (p.1, stripRecord p.2)

theorem map_stripEntry_dictInsert (d : Snapshot) (k : String) (v : StockRecord) :
    (dictInsert d k v).map stripEntry = dictInsert (d.map stripEntry) k (stripRecord v) := by
  induction d with
  | nil => rfl
  | cons p rest ih =>
    obtain ⟨a, b⟩ := p
    by_cases h : a = k
    · simp [dictInsert, h, stripEntry]
    · simp [dictInsert, h, stripEntry, ih]

theorem fetchFold_strip_indep (outcomes : List (String × FetchResult)) :
    ∀ (init1 init2 : Snapshot) (n1 n2 : String),
    init1.map stripEntry = init2.map stripEntry →
    (fetchFold init1 outcomes n1).map stripEntry = (fetchFold init2 outcomes n2).map stripEntry := by
  induction outcomes with
  | nil =>
    intro _ _ _ _ h
    exact h
  | cons p rest ih =>
    intro i1 i2 n1 n2 h
    obtain ⟨t, res⟩ := p
    cases res with
    | ok info =>
      show (fetchFold (dictInsert i1 t (buildStockData t info n1)) rest n1).map stripEntry = _
      apply ih
      rw [map_stripEntry_dictInsert, map_stripEntry_dictInsert, h]
      rfl
    | failure m =>
      exact ih _ _ _ _ h

theorem length_filter_trichotomy (l : List StockRecord) :
    (l.filter (fun s => decide (0 < s.change_percent))).length +
      (l.filter (fun s => decide (s.change_percent < 0))).length +
      (l.filter (fun s => decide (s.change_percent = 0))).length = l.length := by
  induction l with
  | nil => rfl
  | cons r rest ih =>
    rcases lt_trichotomy r.change_percent 0 with h | h | h
    · simp only [List.filter_cons, decide_eq_true_eq, List.length_cons]
      rw [if_neg (by simpa using not_lt.mpr h.le), if_pos (by simpa using h),
        if_neg (by simpa using ne_of_lt h)]
      simp only [List.length_cons]
      omega
    · simp only [List.filter_cons]
      rw [if_neg (by simp [h]), if_neg (by simp [h]), if_pos (by simp [h])]
      simp only [List.length_cons]
      omega
    · simp only [List.filter_cons]
      rw [if_pos (by simpa using h), if_neg (by simpa using not_lt.mpr h.le),
        if_neg (by simpa using (ne_of_gt h))]
      simp only [List.length_cons]
      omega

/-! ### Concrete sample data for witnesses and counterexamples -/

/-- A sample yfinance info dict: current price 11, previous close 10. -/
def demoInfo : StockInfo :=
  { currentPrice := some 11
    previousClose := some 10
    longName := some "Demo Corp"
    volume := some 1000
    marketCap := none
    trailingPE := none
    fiftyTwoWeekHigh := none
    fiftyTwoWeekLow := none
    sector := none
    industry := none }

/-- A one-entry snapshot holding only the key AAPL. -/
def demoSnap : Snapshot := [("AAPL", buildStockData "AAPL" demoInfo "t0")]

/-- A record for key A carrying sequence number 2. -/
def recA2 : PipelineRecord :=
  { ticker := "A"
    seq := 2
    company_name := "A Corp"
    price := 11
    previous_close := 10
    change_percent := 10
    volume := 5
    market_cap := 0
    pe_ratio := 0
    fifty_two_week_high := 0
    fifty_two_week_low := 0
    sector := "Unknown"
    industry := "Unknown"
    timestamp := "t2" }

/-- A record for key A carrying sequence number 1, appended after recA2. -/
def recA1 : PipelineRecord :=
  { ticker := "A"
    seq := 1
    company_name := "A Corp"
    price := 10
    previous_close := 10
    change_percent := 0
    volume := 4
    market_cap := 0
    pe_ratio := 0
    fifty_two_week_high := 0
    fifty_two_week_low := 0
    sector := "Unknown"
    industry := "Unknown"
    timestamp := "t1" }

/-! ### Claim theorems -/

/-- Claim C1, amended and proved. The latest-state reduction of
stock_api_pipeline.py is an unconditional per-key last-write-wins
overwrite: after consuming any sequence of records in append order, the
final Snapshot Entry for each key equals the last record appended for that
key, and records for other positions are absorbed silently without error.
No sequence-number comparison is performed, so the final entry coincides
with the highest-sequence record only when the records of each key arrive
in nondecreasing sequence order. -/
theorem reducer_last_write_wins (log : List PipelineRecord) (k : String) :
    List.lookup k (reduceLog [] log) = log.reverse.find? (fun r => r.ticker == k) := by
  rw [lookup_reduceLog]
  show (log.reverse.find? fun r => r.ticker == k).or none = _
  rw [Option.or_none]

/-- Claim C1 counterexample: a record with sequence number 1 appended after
a record with sequence number 2 for the same key still overwrites it, so
the stored entry is updated by a record whose sequence number is lower than
the one currently stored, and the final entry is not the record with the
highest observed sequence number. -/
theorem reducer_seq_counterexample :
    recA1.seq < recA2.seq ∧
    List.lookup "A" (reduceLog [] [recA2, recA1]) = some recA1 := by decide

/-- Claim C2, the code evaluated at the failing inputs. The staleness gate
compares the seconds component of the timedelta (elapsed whole seconds
modulo one day) against 60, with a nonempty cache and a set last_update:
an elapsed time of 60.5 seconds (threshold + half a second) does not
trigger a refresh, an elapsed time of one day plus 30 seconds does not
trigger a refresh, while 61.000001 seconds does. -/
theorem staleness_gate_eval :
    needsRefresh false false 60500000 = false ∧
    needsRefresh false false 86430000000 = false ∧
    needsRefresh false false 61000001 = true := by decide

/-- Claim C3 counterexample: key B succeeds in one refresh and is present
in the snapshot it publishes; in the next refresh the fetch for B fails,
the newly published snapshot no longer contains B, and get-by-key then
returns a 404 error instead of the last good value. -/
theorem partial_failure_counterexample :
    List.lookup "B" (fetch_stock_data [("B", FetchResult.ok demoInfo)] "t1") =
      some (buildStockData "B" demoInfo "t1") ∧
    List.lookup "B" (fetch_stock_data [("B", FetchResult.failure "boom")] "t2") = none ∧
    get_stock (fetch_stock_data [("B", FetchResult.failure "boom")] "t2") "B" =
      Except.error { status_code := 404, detail := "Stock B not found" } :=
  ⟨rfl, rfl, rfl⟩

/-- Claim C3, amended and proved. Within a single refresh, failures are
isolated per key: every key with a successful fetch in the pass appears in
the published snapshot. But fetch_stock_data rebuilds the snapshot from
scratch and replaces the cache wholesale, so a key with no successful
fetch in the latest pass is absent from the published snapshot regardless
of earlier successes. (The connector of stock_api_pipeline.py, in
contrast, does retain the last good record: its per-key update never
removes a key that is already present.) -/
theorem partial_failure_isolation (outcomes : List (String × FetchResult)) (now k : String) :
    ((∃ info, (k, FetchResult.ok info) ∈ outcomes) →
      List.lookup k (fetch_stock_data outcomes now) ≠ none) ∧
    ((∀ info, (k, FetchResult.ok info) ∉ outcomes) →
      List.lookup k (fetch_stock_data outcomes now) = none) ∧
    (∀ (snap : List (String × PipelineRecord)) (log : List PipelineRecord),
      List.lookup k snap ≠ none → List.lookup k (reduceLog snap log) ≠ none) := by
  refine ⟨?_, ?_, ?_⟩
  · rintro ⟨info, hm⟩
    exact fetchFold_lookup_of_ok outcomes [] now k info hm
  · intro h
    exact fetchFold_lookup_none outcomes [] now k h rfl
  · intro snap log h
    rw [lookup_reduceLog]
    cases hf : log.reverse.find? (fun r => r.ticker == k) with
    | some r => simp [Option.or]
    | none =>
      rw [Option.none_or]
      exact h

/-- Witness for the claim C3 theorem at a concrete refresh: a pass in which
A succeeds and B fails publishes a snapshot that contains A. -/
theorem partial_failure_isolation_witness :
    List.lookup "A"
      (fetch_stock_data [("A", FetchResult.ok demoInfo), ("B", FetchResult.failure "x")] "t") ≠
      none :=
  (partial_failure_isolation [("A", FetchResult.ok demoInfo), ("B", FetchResult.failure "x")]
    "t" "A").1 ⟨demoInfo, List.Mem.head _⟩

/-- Claim C5, confirmed. For every snapshot and every requested ticker
whose case-normalized form is absent from the snapshot, get_stock fails
with the 404 HTTPException, independent of the rest of the snapshot; and
whenever get_stock succeeds, the returned record is exactly the stored
entry of the normalized key — never a defaulted zero-value record. -/
theorem get_stock_not_found (data : Snapshot) (ticker : String) :
    (List.lookup (pyUpper ticker) data = none →
      get_stock data ticker =
        Except.error
          { status_code := 404, detail := "Stock " ++ pyUpper ticker ++ " not found" }) ∧
    (∀ v, get_stock data ticker = Except.ok v →
      List.lookup (pyUpper ticker) data = some v) := by
  constructor
  · intro h
    simp [get_stock, h]
  · intro v hv
    simp only [get_stock] at hv
    cases hl : List.lookup (pyUpper ticker) data with
    | none => simp [hl] at hv
    | some w =>
      simp [hl] at hv
      rw [hv]

/-- Witness for the claim C5 theorem: requesting the untracked key C
against a snapshot holding only AAPL yields the 404 error. -/
theorem get_stock_not_found_witness :
    get_stock demoSnap "C" =
      Except.error { status_code := 404, detail := "Stock " ++ pyUpper "C" ++ " not found" } :=
  (get_stock_not_found demoSnap "C").1 (by decide)

/-- Claim C6 counterexample: for a failed key the pathway_pipeline adapter
returns a fabricated zero-valued quote row inside the same result list,
rather than returning records only for resolved keys. -/
theorem adapter_fabrication_counterexample :
    get_stock_prices [("X", Except.error "boom")] = [fabricatedFailureRecord "X" "boom"] ∧
    (fabricatedFailureRecord "X" "boom").price = 0 ∧
    (fabricatedFailureRecord "X" "boom").previous_close = 0 ∧
    (fabricatedFailureRecord "X" "boom").volume = 0 ∧
    (fabricatedFailureRecord "X" "boom").error = some "boom" :=
  ⟨rfl, rfl, rfl, rfl, rfl⟩

/-- Claim C6, amended and proved. The pathway_pipeline adapter returns
exactly one row per requested key: the parsed quote for a resolved key
and, for a failed key, a fabricated zero-valued quote row that carries the
failure reason in its error field inside the same list — not a separate
failure report. The simple_stock_api adapter, by contrast, returns records
only for resolved keys: a key with no successful fetch contributes no
record at all. -/
theorem adapter_partial_result (outcomes : List (String × Except String PWInfo)) :
    get_stock_prices outcomes =
      outcomes.map (fun p =>
        match p.2 with
        | Except.ok info => buildPWOk p.1 info
        | Except.error e => fabricatedFailureRecord p.1 e) ∧
    (∀ (soutcomes : List (String × FetchResult)) (now k : String),
      (∀ info, (k, FetchResult.ok info) ∉ soutcomes) →
      List.lookup k (fetch_stock_data soutcomes now) = none) := by
  constructor
  · induction outcomes with
    | nil => rfl
    | cons p rest ih =>
      obtain ⟨t, res⟩ := p
      cases res with
      | ok info => simp [get_stock_prices, ih]
      | error e => simp [get_stock_prices, ih]
  · intro so now k h
    exact fetchFold_lookup_none so [] now k h rfl

/-- Witness for the claim C6 theorem: a key whose only fetch failed is
absent from the snapshot published by simple_stock_api. -/
theorem adapter_partial_result_witness :
    List.lookup "Z" (fetch_stock_data [("Z", FetchResult.failure "nope")] "t") = none :=
  (adapter_partial_result []).2 [("Z", FetchResult.failure "nope")] "t" "Z" (by
    intro info h
    simp at h)

/-- Claim C7 counterexample: two refreshes with identical upstream data,
one second apart, publish different snapshots — the per-entry timestamp
field records the clock reading of the refresh that produced it. -/
theorem refresh_timestamp_counterexample :
    fetch_stock_data [("A", FetchResult.ok demoInfo)] "2024-01-01T00:00:00" ≠
      fetch_stock_data [("A", FetchResult.ok demoInfo)] "2024-01-01T00:00:01" := by
  intro h
  have h2 := congrArg (fun s : Snapshot => s.map (fun p => p.2.timestamp)) h
  simp only [fetch_stock_data, fetchFold, dictInsert, List.map] at h2
  simp [buildStockData] at h2

/-- Claim C7, amended and proved. Refresh recomputes the snapshot from the
fetched upstream data alone — it never reads the previously cached
snapshot — so two refreshes with the same upstream fetch outcomes agree on
every field of every entry except the per-entry timestamp, which each
refresh stamps with its own clock reading; with an equal clock reading the
two published snapshots are identical. -/
theorem refresh_deterministic (outcomes : List (String × FetchResult)) (n1 n2 : String) :
    (fetch_stock_data outcomes n1).map stripEntry =
      (fetch_stock_data outcomes n2).map stripEntry ∧
    (n1 = n2 → fetch_stock_data outcomes n1 = fetch_stock_data outcomes n2) := by
  constructor
  · exact fetchFold_strip_indep outcomes [] [] n1 n2 rfl
  · intro h
    rw [h]

/-- Witness for the claim C7 theorem at one concrete refresh input. -/
theorem refresh_deterministic_witness :
    fetch_stock_data [("A", FetchResult.ok demoInfo)] "t" =
      fetch_stock_data [("A", FetchResult.ok demoInfo)] "t" :=
  (refresh_deterministic [("A", FetchResult.ok demoInfo)] "t" "t").2 rfl

/-- Claim C8, confirmed. get_performance_summary is a pure function of the
snapshot (the Python body only reads the dict — sum, sorted and the
comprehensions allocate fresh lists): it returns the count of entries with
positive change_percent as gainers, the count with negative change_percent
as losers, flat as the remainder — which equals the count of zero-change
entries, so gainers + losers + flat is the total — and the arithmetic mean
of the change_percent fields, rounded to two decimals for the response. -/
theorem performance_summary_fold (data : Snapshot) :
    (get_performance_summary data).total_stocks = (data.map Prod.snd).length ∧
    (get_performance_summary data).gainers =
      ((data.map Prod.snd).filter (fun r => decide (0 < r.change_percent))).length ∧
    (get_performance_summary data).losers =
      ((data.map Prod.snd).filter (fun r => decide (r.change_percent < 0))).length ∧
    (get_performance_summary data).flat =
      ((data.map Prod.snd).filter (fun r => decide (r.change_percent = 0))).length ∧
    (get_performance_summary data).gainers + (get_performance_summary data).losers +
      (get_performance_summary data).flat = (get_performance_summary data).total_stocks ∧
    (get_performance_summary data).avg_change_percent =
      round2 (if data.length = 0 then 0
        else ((data.map Prod.snd).map (fun r => r.change_percent)).sum / (data.length : ℚ)) := by
  have h3 := length_filter_trichotomy (data.map Prod.snd)
  have hg : (get_performance_summary data).gainers =
      ((data.map Prod.snd).filter (fun r => decide (0 < r.change_percent))).length := rfl
  have hlo : (get_performance_summary data).losers =
      ((data.map Prod.snd).filter (fun r => decide (r.change_percent < 0))).length := rfl
  have htot : (get_performance_summary data).total_stocks = (data.map Prod.snd).length := rfl
  have hfl : (get_performance_summary data).flat =
      (data.map Prod.snd).length -
        ((data.map Prod.snd).filter (fun r => decide (0 < r.change_percent))).length -
        ((data.map Prod.snd).filter (fun r => decide (r.change_percent < 0))).length := rfl
  refine ⟨rfl, rfl, rfl, ?_, ?_, ?_⟩
  · rw [hfl]
    omega
  · rw [hg, hlo, hfl, htot]
    omega
  · show round2 (if (((data.map Prod.snd).map fun s => s.change_percent)).length ≠ 0
        then (((data.map Prod.snd).map fun s => s.change_percent)).sum /
          ((((data.map Prod.snd).map fun s => s.change_percent)).length : ℚ)
        else 0) = _
    have hlen : (((data.map Prod.snd).map fun s => s.change_percent)).length = data.length := by
      simp
    by_cases h : data.length = 0
    · rw [if_neg (by simp [hlen, h]), if_pos h]
    · rw [if_pos (by simp [hlen, h]), if_neg h, hlen]

/-- Claim C9, confirmed. The polling loops never terminate on their own:
run over any finite sequence of tick outcomes, every tick is processed in
order (the loop bodies contain no break, return or re-raise, and the
per-iteration except clause catches every fetch exception), and every
iteration — success or failure — ends with control returning to the top of
the loop after a bounded sleep: the refresh interval in
stock_api_pipeline.py, and the refresh interval or the fixed 30-second
backoff in pathway_pipeline.py. A failed tick emits no records and logs a
non-fatal error message. -/
theorem poller_never_self_terminates (interval : Nat)
    (fetches : List (Except String (List PipelineRecord))) :
    (pollLoopStockApi interval fetches).length = fetches.length ∧
    (∀ r ∈ pollLoopStockApi interval fetches,
      r.continues = true ∧ r.sleepSeconds = interval) ∧
    (∀ e, (pollTickStockApi interval (Except.error e)).continues = true ∧
      (pollTickStockApi interval (Except.error e)).emitted = [] ∧
      (pollTickStockApi interval (Except.error e)).errorLogged =
        some ("Error in stock data source: " ++ e) ∧
      (pollTickStockApi interval (Except.error e)).sleepSeconds = interval) ∧
    (∀ (e : String) (f2 : Except String (List PWRecord)),
      (pollTickPathway interval f2).continues = true ∧
      (pollTickPathway interval (Except.error e)).emitted = [] ∧
      (pollTickPathway interval (Except.error e)).errorLogged =
        some ("Stock data error: " ++ e) ∧
      (pollTickPathway interval (Except.error e)).sleepSeconds = 30) := by
  refine ⟨by simp [pollLoopStockApi], ?_, ?_, ?_⟩
  · intro r hr
    simp only [pollLoopStockApi, List.mem_map] at hr
    obtain ⟨f, _, rfl⟩ := hr
    cases f <;> simp [pollTickStockApi]
  · intro e
    simp [pollTickStockApi]
  · intro e f2
    refine ⟨?_, by simp [pollTickPathway], by simp [pollTickPathway], by simp [pollTickPathway]⟩
    cases f2 <;> simp [pollTickPathway]

/-- Witness for the claim C9 theorem: the tick following a failed fetch
continues the loop and sleeps the configured interval. -/
theorem poller_never_self_terminates_witness :
    (pollTickStockApi 30 (Except.error "boom")).continues = true ∧
    (pollTickStockApi 30 (Except.error "boom")).sleepSeconds = 30 :=
  (poller_never_self_terminates 30 [Except.error "boom"]).2.1
    (pollTickStockApi 30 (Except.error "boom")) (by simp [pollLoopStockApi])

/-- Claim C10, confirmed. In all three fetch paths the change-percent
division is guarded: simple_stock_api.py and stock_api_pipeline.py compute
the formula only when previous_close is strictly positive, and
pathway_pipeline.py only when prev_close is truthy (nonzero); in every
other case the result is the literal 0.0. The guard implies the divisor is
nonzero whenever the division is performed. -/
theorem change_percent_guarded (price prev : ℚ) :
    (0 < prev → prev ≠ 0 ∧ changePercentGuarded price prev = (price - prev) / prev * 100) ∧
    (¬ 0 < prev → changePercentGuarded price prev = 0) ∧
    (prev ≠ 0 → changePercentTruthy price prev = (price - prev) / prev * 100) ∧
    (prev = 0 → changePercentTruthy price prev = 0) := by
  refine ⟨fun h => ⟨ne_of_gt h, ?_⟩, fun h => ?_, fun h => ?_, fun h => ?_⟩
  · simp [changePercentGuarded, h]
  · simp [changePercentGuarded, h]
  · simp [changePercentTruthy, h]
  · simp [changePercentTruthy, h]

/-- Witness for the claim C10 theorem with previous close 10 and price 11. -/
theorem change_percent_guarded_witness :
    (10 : ℚ) ≠ 0 ∧ changePercentGuarded 11 10 = (11 - 10) / 10 * 100 :=
  (change_percent_guarded 11 10).1 (by norm_num)

end StockCore
